import Mathlib

/-!
Verification of the core of `yagptmanager`: the credential/token
lifecycle manager (`yagptmanager/auth/manager.py`) and the per-session
context-window manager (`yagptmanager/context/manager.py`).

The Python source is shallowly embedded: Python `int` becomes `Int`,
`Optional[T]` becomes `Option T`, raised exceptions become
`Except String` results, and the two `while` loops of
`ContextManager.update_context` become structurally recursive functions
on lists (the deque is head-evictable, so a `List` with head = oldest is
the natural image). Wall-clock readings (`time.time()`) and network
responses are passed in as explicit parameters.
-/

set_option autoImplicit false

namespace YaGptManager

/-! ### Data model (`yagptmanager/types.py`) -/

/-- `Role` enum from `types.py`: system | assistant | user. -/
inductive Role where
  | system
  | assistant
  | user
  deriving DecidableEq, Repr

/-- `MessageContext` pydantic model from `types.py`: a new message to be
added to the context, with its token cost. -/
structure MessageContext where
  role : Role
  text : String
  tokens : Int
  deriving DecidableEq, Repr

/-- One element of the cached context list: the dict
`{"role": ..., "text": ..., "tokens": ...}` stored in the cache
(see `update_context` line 72). -/
structure ContextEntry where
  role : Role
  text : String
  tokens : Int
  deriving DecidableEq, Repr

/-- The dict built from a `MessageContext` at `update_context` line 72:
`{"role": new_message.role, "text": new_message.text, "tokens": new_message.tokens}`. -/
def MessageContext.toEntry (m : MessageContext) : ContextEntry :=
  ⟨m.role, m.text, m.tokens⟩

/-- `sum(msg["tokens"] for msg in context)` (`update_context` line 63). -/
def sumTokens : List ContextEntry → Int
  | [] => 0
  | e :: rest => e.tokens + sumTokens rest

/-! ### Context manager (`yagptmanager/context/manager.py`)

`ContextManager` is configured by `max_context_messages` (default 5) and
`max_tokens` (default 7500); both are plain Python ints, embedded as
`Int` arguments. -/

/-- `ContextManager.get_context` (lines 26–42): reads the blob stored at
`context:{session_id}` (here the `Option String` already fetched from
the cache) and runs `json.loads` on it; a `JSONDecodeError` is caught
and turned into `None`.  The behaviour of the external `json.loads` is
passed in as `jsonLoads`, returning `Except` to model the exception. -/
def get_context (cached : Option String)
    (jsonLoads : String → Except String (List ContextEntry)) :
    Option (List ContextEntry) :=
  match cached with
  | none => none
  | some blob =>
    match jsonLoads blob with
    | .ok ctx => some ctx
    | .error _ => none

/-- The count-eviction loop of `update_context` (lines 59–60):
`while len(context) >= self.max_context_messages: context.popleft()`.
`deque.popleft()` on an empty deque raises `IndexError`, embedded as an
`Except.error`.  The list head is the oldest entry. -/
def trimCount (maxMsgs : Int) : List ContextEntry → Except String (List ContextEntry)
  | [] =>
    if maxMsgs ≤ 0 then .error "IndexError: pop from an empty deque"
    else .ok []
  | e :: rest =>
    if maxMsgs ≤ ((e :: rest).length : Int) then trimCount maxMsgs rest
    else .ok (e :: rest)

/-- The budget-eviction loop of `update_context` (lines 66–68):
`while total_tokens >= self.max_tokens and context:` pop the oldest
entry and subtract its token cost from the running total.  Returns the
remaining deque and the running total. -/
def trimBudget (maxTokens : Int) : List ContextEntry → Int → List ContextEntry × Int
  | [], total => ([], total)
  | e :: rest, total =>
    if maxTokens ≤ total then trimBudget maxTokens rest (total - e.tokens)
    else (e :: rest, total)

/-- `ContextManager.update_context` (lines 44–76), with the context
already read from the cache (`prior`; an absent or undecodable cache
entry gives `[]`, line 56).  Count-eviction runs first, then the total
including the new message's cost is computed (line 63), then
budget-eviction runs, then the new message is appended (line 72).  The
resulting list is what is serialized back to the cache with TTL 3600
and returned. -/
def update_context (maxMsgs maxTokens : Int) (prior : List ContextEntry)
    (msg : MessageContext) : Except String (List ContextEntry) :=
  match trimCount maxMsgs prior with
  | .error e => .error e
  | .ok trimmed =>
    let total := sumTokens trimmed + msg.tokens
    let kept := (trimBudget maxTokens trimmed total).1
    .ok (kept ++ [msg.toEntry])

/-- Sequential `update_context` calls on one session: each call reads
back exactly the list the previous call wrote (the cache stores the
JSON serialization, which round-trips). -/
def update_context_seq (maxMsgs maxTokens : Int) :
    List ContextEntry → List MessageContext → Except String (List ContextEntry)
  | ctx, [] => .ok ctx
  | ctx, msg :: rest =>
    match update_context maxMsgs maxTokens ctx msg with
    | .error e => .error e
    | .ok ctx' => update_context_seq maxMsgs maxTokens ctx' rest

/-! ### Auth manager (`yagptmanager/auth/manager.py`)

Only the token-caching state machine of `get_token` / `_fetch_token` is
embedded.  JWT signing and the HTTP exchange are external effects: the
endpoint's answer is passed in as an `Except String TokenResponse`
(`.error` covers both a non-200 status, line 90, and an
`aiohttp.ClientError`, line 101).  `time.time()` is read twice per
refreshing call — once at `get_token` line 107 (`checkTime`) and once at
`_fetch_token` line 96 (`fetchTime`) — so both readings are parameters.
Times are embedded as `Int` seconds. -/

/-- The mutable state of an `AuthManager`: `self._token` and
`self._token_expiry` (lines 26–27), both `None` at construction. -/
structure AuthState where
  token : Option String
  tokenExpiry : Option Int
  deriving DecidableEq, Repr

/-- A successful JSON body from the IAM token endpoint: `iamToken`
plus optional `expiresIn` (line 94 reads it with default 43200). -/
structure TokenResponse where
  iamToken : String
  expiresIn : Option Int
  deriving DecidableEq, Repr

/-- Python truthiness of `Optional[str]`: `not self._token` is true for
`None` and for the empty string. -/
def falsyStr : Option String → Bool
  | none => true
  | some t => t == ""

/-- Python truthiness of `Optional[float]`: `not self._token_expiry` is
true for `None` and for `0`. -/
def falsyTime : Option Int → Bool
  | none => true
  | some x => x == 0

/-- The refresh condition of `get_token` (line 108):
`not self._token or not self._token_expiry or current_time >= self._token_expiry`.
When it is `false` the cached token is returned with no network call. -/
def needsRefresh (s : AuthState) (checkTime : Int) : Bool :=
  falsyStr s.token || falsyTime s.tokenExpiry ||
    decide (s.tokenExpiry.getD 0 ≤ checkTime)

/-- `AuthManager._fetch_token` (lines 78–101) given the endpoint's
answer: on error the state is untouched and the exception propagates;
on success `self._token` is set to `iamToken` and `self._token_expiry`
to `time.time() + expires_in - 600` with `expires_in` defaulting to
43200 (lines 93–96). -/
def fetch_token (s : AuthState) (fetchTime : Int)
    (resp : Except String TokenResponse) : AuthState × Except String Unit :=
  match resp with
  | .error e => (s, .error e)
  | .ok r =>
    ({ token := some r.iamToken,
       tokenExpiry := some (fetchTime + r.expiresIn.getD 43200 - 600) }, .ok ())

/-- `AuthManager.get_token` (lines 103–112): under the instance lock, if
the refresh condition holds run `_fetch_token`, then return
`self._token` (unwrapped; `""` stands for the unreachable `None`). -/
def get_token (s : AuthState) (checkTime fetchTime : Int)
    (resp : Except String TokenResponse) : AuthState × Except String String :=
  if needsRefresh s checkTime then
    match fetch_token s fetchTime resp with
    | (s', .ok ()) => (s', .ok (s'.token.getD ""))
    | (s', .error e) => (s', .error e)
  else
    (s, .ok (s.token.getD ""))

/-- Number of token-endpoint invocations performed by one `get_token`
call: `_fetch_token` posts to the endpoint exactly once, and is entered
exactly when the refresh condition holds. -/
def get_token_network_calls (s : AuthState) (checkTime : Int) : Nat :=
  if needsRefresh s checkTime then 1 else 0

/-! ### Helper lemmas about the eviction loops -/

theorem sumTokens_append (l₁ l₂ : List ContextEntry) :
    sumTokens (l₁ ++ l₂) = sumTokens l₁ + sumTokens l₂ := by
  induction l₁ with
  | nil => simp [sumTokens]
  | cons e rest ih => simp [sumTokens, ih]; ring

theorem getLast?_append_singleton (l : List ContextEntry) (e : ContextEntry) :
    (l ++ [e]).getLast? = some e := by
  induction l with
  | nil => rfl
  | cons a rest ih =>
    cases rest with
    | nil => rfl
    | cons b rest' => simpa using ih

/-- With a positive message limit, the count-eviction loop terminates
normally and leaves strictly fewer entries than the limit. -/
theorem trimCount_ok (m : Int) (hm : 1 ≤ m) (l : List ContextEntry) :
    ∃ l', trimCount m l = .ok l' ∧ (l'.length : Int) < m := by
  induction l with
  | nil =>
    have h0 : ¬ m ≤ 0 := by omega
    exact ⟨[], by simp [trimCount, h0], by simp; omega⟩
  | cons e rest ih =>
    by_cases h : m ≤ (rest.length : Int) + 1
    · obtain ⟨l', h1, h2⟩ := ih
      exact ⟨l', by simp [trimCount, h, h1], h2⟩
    · exact ⟨e :: rest, by simp [trimCount, h], by simp; omega⟩

/-- With a non-positive message limit, the count-eviction loop always
ends by popping an empty deque, which raises `IndexError`. -/
theorem trimCount_error (m : Int) (hm : m ≤ 0) (l : List ContextEntry) :
    trimCount m l = .error "IndexError: pop from an empty deque" := by
  induction l with
  | nil => simp [trimCount, hm]
  | cons e rest ih =>
    have h : m ≤ (rest.length : Int) + 1 := by
      have := Int.natCast_nonneg rest.length
      omega
    simp [trimCount, h, ih]

/-- Invariant of the budget-eviction loop when started, as in
`update_context`, at total = (sum of the list) + (cost `k` of the new
message): the kept suffix satisfies the budget unless everything was
evicted, the returned running total stays consistent, and the loop only
shrinks the list. -/
theorem trimBudget_spec (b : Int) (l : List ContextEntry) (k : Int) :
    (trimBudget b l (sumTokens l + k)).2 = sumTokens (trimBudget b l (sumTokens l + k)).1 + k ∧
    (sumTokens (trimBudget b l (sumTokens l + k)).1 + k < b ∨
      (trimBudget b l (sumTokens l + k)).1 = []) ∧
    (trimBudget b l (sumTokens l + k)).1.length ≤ l.length := by
  induction l with
  | nil => simp [trimBudget, sumTokens]
  | cons e rest ih =>
    by_cases h : b ≤ sumTokens (e :: rest) + k
    · have step : trimBudget b (e :: rest) (sumTokens (e :: rest) + k) =
          trimBudget b rest (sumTokens rest + k) := by
        have harg : sumTokens (e :: rest) + k - e.tokens = sumTokens rest + k := by
          simp [sumTokens]; ring
        simp [trimBudget, h, harg]
      rw [step]
      obtain ⟨h1, h2, h3⟩ := ih
      exact ⟨h1, h2, le_trans h3 (by simp)⟩
    · have step : trimBudget b (e :: rest) (sumTokens (e :: rest) + k) =
          (e :: rest, sumTokens (e :: rest) + k) := by
        simp [trimBudget, h]
      rw [step]
      exact ⟨rfl, Or.inl (by show sumTokens (e :: rest) + k < b; omega), le_refl _⟩

/-- Full postcondition of `update_context` under the precondition
`1 ≤ max_context_messages`: the call succeeds, the result is non-empty,
ends with the new entry, has at most `max_context_messages` entries,
and its token cost is below `max_tokens` unless it consists of the new
entry alone. -/
theorem update_context_spec (m b : Int) (prior : List ContextEntry)
    (msg : MessageContext) (hm : 1 ≤ m) :
    ∃ l, update_context m b prior msg = .ok l ∧ l ≠ [] ∧
      l.getLast? = some msg.toEntry ∧ (l.length : Int) ≤ m ∧
      (sumTokens l < b ∨ l = [msg.toEntry]) := by
  obtain ⟨t, ht, htlen⟩ := trimCount_ok m hm prior
  obtain ⟨h1, h2, h3⟩ := trimBudget_spec b t msg.tokens
  refine ⟨(trimBudget b t (sumTokens t + msg.tokens)).1 ++ [msg.toEntry],
    by simp [update_context, ht], by simp, getLast?_append_singleton _ _, ?_, ?_⟩
  · simp only [List.length_append, List.length_cons, List.length_nil]
    omega
  · rcases h2 with h2 | h2
    · left
      rw [sumTokens_append]
      simpa [sumTokens, MessageContext.toEntry] using h2
    · right
      rw [h2]
      rfl

/-! ### Claim theorems: context manager -/

/-- C2: token-budget eviction removes only entries present before the
new entry is appended.  With max token budget 100 and an existing
one-entry context costing 60, updating with a new message costing 50
(total 110 ≥ 100) evicts the existing entry and returns a one-element
context holding only the new entry, of cost 50. -/
theorem c2_budget_eviction_targets_prior_entries :
    update_context 5 100 [⟨Role.user, "old", 60⟩] ⟨Role.assistant, "new", 50⟩ =
      .ok [⟨Role.assistant, "new", 50⟩] ∧
    sumTokens [⟨Role.assistant, "new", 50⟩] = 50 := ⟨rfl, rfl⟩

/-- C3: `update_context` never removes the newly added entry itself:
whenever the message limit is positive and the new message's token cost
alone exceeds the token budget, updating an empty context yields the
one-element context holding exactly that entry, with cumulative cost
at least the budget. -/
theorem c3_new_entry_never_evicted (m b : Int) (msg : MessageContext)
    (hm : 1 ≤ m) (hbig : b < msg.tokens) :
    update_context m b [] msg = .ok [msg.toEntry] ∧ b ≤ sumTokens [msg.toEntry] := by
  constructor
  · have h0 : ¬ m ≤ 0 := by omega
    simp [update_context, trimCount, h0, trimBudget, sumTokens]
  · simp only [sumTokens, MessageContext.toEntry]
    omega

/-- Witness for C3 at the spec's numbers: cost 9000 against budget 7500
on an empty context with the default message limit 5. -/
theorem c3_witness :
    update_context 5 7500 [] ⟨Role.user, "big", 9000⟩ =
      .ok [MessageContext.toEntry ⟨Role.user, "big", 9000⟩] ∧
    (7500 : Int) ≤ sumTokens [MessageContext.toEntry ⟨Role.user, "big", 9000⟩] :=
  c3_new_entry_never_evicted 5 7500 ⟨Role.user, "big", 9000⟩ (by norm_num) (by norm_num)

/-- C4: count-based eviction uses `≥` on the pre-existing sequence:
with max message count 2 (and costs far below the budget 7500),
sequentially updating an empty session with A, B, C yields [B, C]. -/
theorem c4_count_eviction_drops_oldest :
    update_context_seq 2 7500 []
      [⟨Role.user, "A", 1⟩, ⟨Role.user, "B", 1⟩, ⟨Role.user, "C", 1⟩] =
      .ok [⟨Role.user, "B", 1⟩, ⟨Role.user, "C", 1⟩] := rfl

/-- C5 counterexample: with max message count 2, updating an empty
session with A then B leaves a context of exactly 2 entries, so the
written-back sequence does NOT have entry count strictly less than the
configured maximum. -/
theorem c5_counterexample :
    update_context_seq 2 7500 [] [⟨Role.user, "A", 1⟩, ⟨Role.user, "B", 1⟩] =
      .ok [⟨Role.user, "A", 1⟩, ⟨Role.user, "B", 1⟩] ∧
    ¬ (([⟨Role.user, "A", 1⟩, ⟨Role.user, "B", 1⟩] : List ContextEntry).length < 2) :=
  ⟨rfl, by decide⟩

/-- C5 amended: after every `update_context` with a positive message
limit, the written-back sequence has entry count at most (not strictly
below) the configured maximum, and cumulative token cost strictly below
the budget unless the sequence is exactly the single new entry. -/
theorem c5_amended_update_invariants (m b : Int) (prior : List ContextEntry)
    (msg : MessageContext) (hm : 1 ≤ m) :
    ∃ l, update_context m b prior msg = .ok l ∧ (l.length : Int) ≤ m ∧
      (sumTokens l < b ∨ l = [msg.toEntry]) := by
  obtain ⟨l, h1, _, _, h4, h5⟩ := update_context_spec m b prior msg hm
  exact ⟨l, h1, h4, h5⟩

/-- Witness for the amended C5 at max count 2, budget 100, one prior
entry of cost 60 and a new message of cost 50. -/
theorem c5_amended_witness :
    ∃ l, update_context 2 100 [⟨Role.user, "old", 60⟩] ⟨Role.assistant, "new", 50⟩ =
        .ok l ∧ (l.length : Int) ≤ 2 ∧
      (sumTokens l < 100 ∨ l = [MessageContext.toEntry ⟨Role.assistant, "new", 50⟩]) :=
  c5_amended_update_invariants 2 100 [⟨Role.user, "old", 60⟩]
    ⟨Role.assistant, "new", 50⟩ (by norm_num)

/-- C8: for every `update_context` call with a positive message limit,
the returned sequence is non-empty, ends with the new entry, has at
most the configured maximum number of entries, and its cumulative token
cost is strictly below the budget unless it is the new entry alone. -/
theorem c8_update_context_postcondition (m b : Int) (prior : List ContextEntry)
    (msg : MessageContext) (hm : 1 ≤ m) :
    ∃ l, update_context m b prior msg = .ok l ∧ l ≠ [] ∧
      l.getLast? = some msg.toEntry ∧ (l.length : Int) ≤ m ∧
      (sumTokens l < b ∨ l = [msg.toEntry]) :=
  update_context_spec m b prior msg hm

/-- Witness for C8 with the default configuration (5 messages, budget
7500) on a two-entry prior context. -/
theorem c8_witness :
    ∃ l, update_context 5 7500 [⟨Role.system, "s", 10⟩, ⟨Role.user, "u", 20⟩]
        ⟨Role.assistant, "a", 30⟩ = .ok l ∧ l ≠ [] ∧
      l.getLast? = some (MessageContext.toEntry ⟨Role.assistant, "a", 30⟩) ∧
      (l.length : Int) ≤ 5 ∧
      (sumTokens l < 7500 ∨ l = [MessageContext.toEntry ⟨Role.assistant, "a", 30⟩]) :=
  c8_update_context_postcondition 5 7500 [⟨Role.system, "s", 10⟩, ⟨Role.user, "u", 20⟩]
    ⟨Role.assistant, "a", 30⟩ (by norm_num)

/-- C10: with a non-positive max message count, every `update_context`
call hits `deque.popleft()` on an empty deque — the condition
`len(context) >= max_context_messages` never becomes false — and so
raises `IndexError`; totality needs max message count ≥ 1. -/
theorem c10_nonpositive_limit_always_raises (m b : Int) (prior : List ContextEntry)
    (msg : MessageContext) (hm : m ≤ 0) :
    update_context m b prior msg = .error "IndexError: pop from an empty deque" := by
  simp [update_context, trimCount_error m hm prior]

/-- Witness for C10 at max message count 0 on an empty context. -/
theorem c10_witness :
    update_context 0 7500 [] ⟨Role.user, "A", 1⟩ =
      .error "IndexError: pop from an empty deque" :=
  c10_nonpositive_limit_always_raises 0 7500 [] ⟨Role.user, "A", 1⟩ (by norm_num)

/-- C6: `get_context` returns an absent result, not an error, both when
the cache key is missing and when the stored blob fails to deserialize
(`json.loads` raises `JSONDecodeError`, which is caught); as a total
Lean function of the decoder's outcome it never raises. -/
theorem c6_get_context_soft_fail
    (jsonLoads : String → Except String (List ContextEntry)) :
    get_context none jsonLoads = none ∧
    ∀ blob err, jsonLoads blob = .error err → get_context (some blob) jsonLoads = none := by
  refine ⟨rfl, ?_⟩
  intro blob err h
  simp [get_context, h]

/-- Witness for C6 with a decoder that always fails, applied to a
non-JSON blob. -/
theorem c6_witness :
    get_context (some "not json")
      (fun _ => .error "Expecting value: line 1 column 1") = none :=
  (c6_get_context_soft_fail
      (fun _ => .error "Expecting value: line 1 column 1")).2
    "not json" "Expecting value: line 1 column 1" rfl

/-! ### Claim theorems: auth manager -/

/-- The refresh condition is false exactly on states with a cached
token that is still valid at `now`.  The two hypotheses are the record
invariant maintained by the manager (a stored token string is non-empty
and a stored expiry is non-zero, which is what Python's truthiness test
silently assumes). -/
theorem needsRefresh_false_iff (s : AuthState) (now : Int)
    (hTok : ∀ t, s.token = some t → t ≠ "")
    (hExp : ∀ e, s.tokenExpiry = some e → e ≠ 0) :
    needsRefresh s now = false ↔
      ∃ t e, s.token = some t ∧ s.tokenExpiry = some e ∧ now < e := by
  obtain ⟨tok, exp⟩ := s
  cases tok with
  | none => simp [needsRefresh, falsyStr]
  | some t =>
    cases exp with
    | none => simp [needsRefresh, falsyStr, falsyTime]
    | some e =>
      have ht : t ≠ "" := hTok t rfl
      have he : e ≠ 0 := hExp e rfl
      simp [needsRefresh, falsyStr, falsyTime, ht, he]

/-- C1: `get_token` returns the cached bearer token with no network
call iff a token is cached and the check time is strictly before the
stored expiry threshold; otherwise it performs exactly one refresh
which, on a successful response, stores `iamToken` and sets the expiry
threshold to the fetch-time clock reading plus `expiresIn` (default
43200) minus 600. -/
theorem c1_get_token_cache_policy (s : AuthState) (checkTime fetchTime : Int)
    (resp : Except String TokenResponse)
    (hTok : ∀ t, s.token = some t → t ≠ "")
    (hExp : ∀ e, s.tokenExpiry = some e → e ≠ 0) :
    (get_token_network_calls s checkTime = 0 ↔
      ∃ t e, s.token = some t ∧ s.tokenExpiry = some e ∧ checkTime < e) ∧
    (get_token_network_calls s checkTime = 0 →
      get_token s checkTime fetchTime resp = (s, .ok (s.token.getD ""))) ∧
    (get_token_network_calls s checkTime = 1 →
      ∀ r, resp = .ok r →
        get_token s checkTime fetchTime resp =
          ({ token := some r.iamToken,
             tokenExpiry := some (fetchTime + r.expiresIn.getD 43200 - 600) },
           .ok r.iamToken)) := by
  have hiff := needsRefresh_false_iff s checkTime hTok hExp
  refine ⟨?_, ?_, ?_⟩
  · rw [← hiff]
    unfold get_token_network_calls
    cases h : needsRefresh s checkTime <;> simp [h]
  · intro h0
    have h : needsRefresh s checkTime = false := by
      unfold get_token_network_calls at h0
      cases h : needsRefresh s checkTime <;> simp [h] at h0 ⊢
    simp [get_token, h]
  · intro h1 r hr
    have h : needsRefresh s checkTime = true := by
      unfold get_token_network_calls at h1
      cases h : needsRefresh s checkTime <;> simp [h] at h1 ⊢
    subst hr
    simp [get_token, h, fetch_token]

/-- Witness for C1: the empty construction state with a successful
endpoint response forces exactly one refresh that stores the new token
and threshold. -/
theorem c1_witness :
    (get_token_network_calls ⟨none, none⟩ 50 = 0 ↔
      ∃ t e, (⟨none, none⟩ : AuthState).token = some t ∧
        (⟨none, none⟩ : AuthState).tokenExpiry = some e ∧ 50 < e) ∧
    (get_token_network_calls ⟨none, none⟩ 50 = 0 →
      get_token ⟨none, none⟩ 50 50 (.ok ⟨"newtok", none⟩) =
        (⟨none, none⟩, .ok ((⟨none, none⟩ : AuthState).token.getD ""))) ∧
    (get_token_network_calls ⟨none, none⟩ 50 = 1 →
      ∀ r, (.ok ⟨"newtok", none⟩ : Except String TokenResponse) = .ok r →
        get_token ⟨none, none⟩ 50 50 (.ok ⟨"newtok", none⟩) =
          ({ token := some r.iamToken,
             tokenExpiry := some (50 + r.expiresIn.getD 43200 - 600) },
           .ok r.iamToken)) :=
  c1_get_token_cache_policy ⟨none, none⟩ 50 50 (.ok ⟨"newtok", none⟩)
    (fun _ h => Option.noConfusion h) (fun _ h => Option.noConfusion h)

/-- C9: when the refresh path is taken and the endpoint answers with a
failure (non-200 status or connection error), `get_token` propagates
the exception and leaves the stored token and expiry threshold exactly
as they were before the call. -/
theorem c9_refresh_failure_preserves_state (s : AuthState) (checkTime fetchTime : Int)
    (err : String) (h : needsRefresh s checkTime = true) :
    get_token s checkTime fetchTime (.error err) = (s, .error err) := by
  simp [get_token, h, fetch_token]

/-- Witness for C9 on the empty construction state. -/
theorem c9_witness :
    needsRefresh ⟨none, none⟩ 0 = true ∧
    get_token ⟨none, none⟩ 0 0 (.error "connection error") =
      (⟨none, none⟩, .error "connection error") :=
  ⟨rfl, c9_refresh_failure_preserves_state ⟨none, none⟩ 0 0 "connection error" rfl⟩

end YaGptManager
